import Mathlib

/-!
Verification development for the email corpus engine of the gmail-mcp
repository (`src/gmail_mcp/corpus.py`, class `EmailCorpus`).

Shallow embedding conventions:
* Python strings are embedded as `List Char` (`Str`); Python string
  primitives (`strip`, `lower`, `rstrip`, `split`, slicing, `startswith`,
  `in`) are defined below as executable functions on `Str`.
* The external collaborators (Gmail mail source, embedding backend,
  ChromaDB vector store) are modelled as explicit parameters: the mail
  source as a fetch function, the vector store as a list of stored
  documents plus an abstract query backend.  Calls to the backends are
  made observable in the return values (pages fetched, progress events,
  embed calls, issued query calls) so that "no backend call is issued"
  is a provable statement.
* Backend distances are embedded as exact rationals; Python `int` is
  embedded as `Int` where the source can go negative (`max_emails`,
  `skipped`), and as `Nat` for list lengths.
-/

/-- Embedding of a Python `str` as its list of code points. -/
abbrev Str := List Char

/-- Python whitespace characters recognised by `str.strip()` / `str.split()`
(ASCII model). -/
def isPySpace (c : Char) : Bool :=
  c = ' ' ∨ c = '\t' ∨ c = '\n' ∨ c = '\r' ∨ c = '\x0b' ∨ c = '\x0c'

/-- Python `s.strip()`: remove leading and trailing whitespace. -/
def pyStrip (s : Str) : Str :=
  ((s.dropWhile isPySpace).reverse.dropWhile isPySpace).reverse

/-- Python `s.rstrip(",.")`: remove any trailing commas and periods. -/
def pyRstripPunct (s : Str) : Str :=
  (s.reverse.dropWhile (fun c => c = ',' ∨ c = '.')).reverse

/-- Python `s.lower()` (ASCII model, matching the ASCII sign-off and
greeting vocabularies of the source). -/
def pyLower (s : Str) : Str := s.map Char.toLower

/-- Python `s.startswith(p)`. -/
def pyStartsWith (s p : Str) : Bool := p.isPrefixOf s

/-- Python `s.split(sep)` for a one-character separator `sep`. -/
def splitOnChar (sep : Char) (s : Str) : List Str :=
  s.foldr (fun c acc => if c = sep then [] :: acc else (c :: acc.headD []) :: acc.tail) [[]]

/-- Python `s.split(pred-chars)` generalisation: split at every character
satisfying `p` (used for `re.split` over a one-character-class pattern and
for whitespace splitting; empty fragments are produced between adjacent
separators and are filtered away by all call sites, exactly as the
source's comprehensions do). -/
def splitOnPred (p : Char → Bool) (s : Str) : List Str :=
  s.foldr (fun c acc => if p c then [] :: acc else (c :: acc.headD []) :: acc.tail) [[]]

/-- Python `s.split("\n\n", 1)`: split at the first occurrence of a blank
line separator, returning `none` when no `"\n\n"` occurs. -/
def splitTwoNl : Str → Option (Str × Str)
  | '\n' :: '\n' :: rest => some ([], rest)
  | c :: rest => (splitTwoNl rest).map (fun pr => (c :: pr.1, pr.2))
  | [] => none

/-- Python `s.split()`: split on whitespace runs, dropping empty pieces. -/
def pyWords (s : Str) : List Str :=
  (splitOnPred isPySpace s).filter (fun w => ¬ w = [])

/-- One sent-email record as returned by the mail source
(`GmailClient.get_sent_emails`); the Python dict keys `id`, `thread_id`,
`to`, `subject`, `body`, `date`.  (`to` is a Lean keyword, hence the
field name `to_addr`.) -/
structure Email where
  id : Str
  thread_id : Str
  to_addr : Str
  subject : Str
  body : Str
  date : Str
deriving DecidableEq, Repr

/-- The metadata record stored with a document
(`corpus.py` lines 124-131). -/
structure EmailMeta where
  to_addr : Str
  subject : Str
  date : Str
  thread_id : Str
deriving DecidableEq, Repr

/-- One document held by the ChromaDB collection: id, embedded text and
metadata (the embedding vector itself carries no information used by any
of the engine's observable behaviour and is omitted). -/
structure StoredDoc where
  id : Str
  text : Str
  meta : EmailMeta
deriving DecidableEq, Repr

/-- The vector store collection, in its default (insertion) order. -/
abbrev Store := List StoredDoc

/-- The set of ids held by the store: `set(self.collection.get()["ids"])`
(membership in the list models membership in the Python set). -/
def storeIds (s : Store) : List Str := s.map (·.id)

/-- First stored document with the given id (how a ChromaDB collection
resolves an id). -/
def findById (s : Store) (i : Str) : Option StoredDoc :=
  s.find? (fun d => decide (d.id = i))

/-- `doc = f"To: {email['to']}\nSubject: {email['subject']}\n\n{email['body']}"`
(corpus.py line 122). -/
def buildDocText (e : Email) : Str :=
  ("To: ").data ++ e.to_addr ++ ("\nSubject: ").data ++ e.subject ++ ("\n\n").data ++ e.body

/-- The metadata dict built at corpus.py lines 124-131: `to` and `subject`
truncated to 500 characters. -/
def buildMeta (e : Email) : EmailMeta :=
  { to_addr := e.to_addr.take 500
    subject := e.subject.take 500
    date := e.date
    thread_id := e.thread_id }

/-- `e["id"] not in existing_ids` (corpus.py line 102). -/
def isNewEmail (existing_ids : List Str) (e : Email) : Bool :=
  decide (¬ e.id ∈ existing_ids)

/-- Negation of the skip test `if not email["body"].strip(): continue`
(corpus.py line 119): the email survives the empty-body filter. -/
def hasBody (e : Email) : Bool :=
  decide (¬ pyStrip e.body = [])

/-- The mail source: `gmail.get_sent_emails(max_results, page_token)`
returns a page of emails and an optional next-page token
(page tokens are modelled as naturals). -/
abbrev FetchFun := Int → Option Nat → List Email × Option Nat

/-- The pagination loop of `sync_sent_emails` (corpus.py lines 79-95).
`acc` is `all_emails`, `tok` is `page_token`; the returned triple is
(`all_emails`, the list of `(len(all_emails), max_emails)` progress
notifications a supplied callback would receive, the number of pages
fetched from the mail source). -/
def syncLoop (fetch : FetchFun) (max_emails : Int) (acc : List Email)
    (tok : Option Nat) (events : List (Nat × Int)) (pages : Nat) :
    List Email × List (Nat × Int) × Nat :=
  if _h : (acc.length : Int) < max_emails then
    let page := fetch (min (max_emails - acc.length) 500) tok
    if hp : page.1 = [] then
      (acc, events, pages + 1)
    else
      let acc2 := acc ++ page.1
      let events2 := events ++ [(acc2.length, max_emails)]
      match page.2 with
      | none => (acc2, events2, pages + 1)
      | some t => syncLoop fetch max_emails acc2 (some t) events2 (pages + 1)
  else
    (acc, events, pages)
termination_by (max_emails - acc.length).toNat
decreasing_by
  have hlen : acc.length < (acc ++ page.1).length := by
    have : 0 < page.1.length := List.length_pos.mpr hp
    simp [List.length_append]; omega
  have h2 : (max_emails - ((acc ++ page.1).length : Int)) < max_emails - (acc.length : Int) := by
    have : (acc.length : Int) < ((acc ++ page.1).length : Int) := by exact_mod_cast hlen
    omega
  have h3 : (0:Int) < max_emails - (acc.length : Int) := by omega
  exact (Int.toNat_lt_toNat h3).mpr h2

/-- The full accumulated download of a sync call (the value of
`all_emails` after the pagination loop). -/
def fetchedEmails (fetch : FetchFun) (max_emails : Int) : List Email :=
  (syncLoop fetch max_emails [] none [] 0).1

/-- The statistics dict returned by `sync_sent_emails`. -/
structure SyncStats where
  downloaded : Int
  embedded : Int
  skipped : Int
deriving DecidableEq, Repr

/-- Observable outcome of one `sync_sent_emails` call: the returned
statistics, the store after the call, the progress notifications, the
number of mail-source pages fetched, and the number of calls made to the
embedding backend (`self.model.encode`). -/
structure SyncResult where
  stats : SyncStats
  store : Store
  events : List (Nat × Int)
  pages : Nat
  embedCalls : Nat
deriving DecidableEq, Repr

/-- `EmailCorpus.sync_sent_emails` (corpus.py lines 58-156), with the
collection state threaded explicitly.  `collection.add` appends the new
documents (all their ids are new, so add never collides). -/
def sync_sent_emails (fetch : FetchFun) (store : Store) (max_emails : Int) : SyncResult :=
  let fetched := syncLoop fetch max_emails [] none [] 0
  let all_emails := fetched.1
  if all_emails = [] then
    { stats := ⟨0, 0, 0⟩, store := store, events := fetched.2.1,
      pages := fetched.2.2, embedCalls := 0 }
  else
    let existing_ids := storeIds store
    let new_emails := all_emails.filter (isNewEmail existing_ids)
    if new_emails = [] then
      { stats := ⟨all_emails.length, 0, all_emails.length⟩, store := store,
        events := fetched.2.1, pages := fetched.2.2, embedCalls := 0 }
    else
      let kept := new_emails.filter hasBody
      if kept = [] then
        { stats := ⟨all_emails.length, 0, all_emails.length⟩, store := store,
          events := fetched.2.1, pages := fetched.2.2, embedCalls := 0 }
      else
        { stats := ⟨all_emails.length, kept.length, (all_emails.length : Int) - kept.length⟩,
          store := store ++ kept.map (fun e => ⟨e.id, buildDocText e, buildMeta e⟩),
          events := fetched.2.1, pages := fetched.2.2, embedCalls := 1 }

/-- The `where` filter built by `find_similar_emails`
(`\x7b"to": \x7b"$contains": recipient_filter\x7d\x7d`, corpus.py line 181). -/
structure WhereClause where
  to_contains : Str
deriving DecidableEq, Repr

/-- The raw result of one `collection.query` call, for a single query
text: parallel outer lists `documents`, `metadatas`, `distances`; an
empty outer list models a falsy (absent) field. -/
structure QueryResults where
  documents : List (List Str)
  metadatas : List (List EmailMeta)
  distances : List (List ℚ)

/-- One issued `collection.query` call, as observed by the backend. -/
structure QueryCall where
  query_text : Str
  n_results : Int
  whereClause : Option WhereClause
deriving DecidableEq, Repr

/-- The query backend: `collection.query(query_texts=[q], n_results=n, where=w)`. -/
abbrev QueryFun := Str → Int → Option WhereClause → QueryResults

/-- One formatted hit of `find_similar_emails` (corpus.py lines 197-205). -/
structure Hit where
  content : Str
  to_addr : Str
  subject : Str
  date : Str
  similarity : Option ℚ
deriving DecidableEq

/-- The result-formatting loop of `find_similar_emails`
(corpus.py lines 191-205).  Mirrors
`if results["documents"] and results["documents"][0]:` and, per index,
`results["metadatas"][0][i] if results["metadatas"] else \x7b\x7d` and
`results["distances"][0][i] if results["distances"] else None`, then
`"similarity": 1 - distance if distance else None` — note the Python
truthiness test on `distance`, which is false for distance `0`. -/
def formatHits (r : QueryResults) : List Hit :=
  match r.documents.head? with
  | none => []
  | some docs0 =>
    (List.range docs0.length).map (fun i =>
      let doc := docs0.getD i []
      let metadata : Option EmailMeta :=
        if r.metadatas = [] then none else (r.metadatas.headD []).get? i
      let distance : Option ℚ :=
        if r.distances = [] then none else (r.distances.headD []).get? i
      { content := doc
        to_addr := (metadata.map (·.to_addr)).getD ("Unknown").data
        subject := (metadata.map (·.subject)).getD []
        date := (metadata.map (·.date)).getD []
        similarity :=
          match distance with
          | some d => if d = 0 then none else some (1 - d)
          | none => none })

/-- `EmailCorpus.find_similar_emails` (corpus.py lines 158-207).  Returns
the formatted hits together with the list of query calls issued to the
vector store backend (so that "no backend call" is observable). -/
def find_similar_emails (store : Store) (backend : QueryFun) (query : Str)
    (n_results : Int) (recipient_filter : Option Str) : List Hit × List QueryCall :=
  if store.length = 0 then ([], [])
  else
    let where_filter : Option WhereClause :=
      match recipient_filter with
      | some s => if s = [] then none else some ⟨s⟩
      | none => none
    let results := backend query n_results where_filter
    (formatHits results, [⟨query, n_results, where_filter⟩])

/-- Header/body split of a stored document (corpus.py lines 243-249):
`parts = doc.split("\n\n", 1)`; the part after the first blank line is
the body, the whole text if no blank line exists. -/
def bodyOfDoc (doc : Str) : Str :=
  match splitTwoNl doc with
  | some pr => pr.2
  | none => doc

/-- The greeting keyword set of corpus.py line 258. -/
def greetingKeys : List Str :=
  [("hi ").data, ("hey ").data, ("hello ").data, ("dear ").data, ("good ").data,
   ("morning").data, ("afternoon").data, ("evening").data]

/-- `first_line = body.strip().split("\n")[0] if body.strip() else ""`
(corpus.py line 254). -/
def firstLineOf (body : Str) : Str :=
  if pyStrip body = [] then [] else (splitOnChar '\n' (pyStrip body)).headD []

/-- The greeting recorded for one body (corpus.py lines 253-260), `none`
when the first line is not classified as a greeting. -/
def greetingOf (body : Str) : Option Str :=
  let first_line := firstLineOf body
  if greetingKeys.any (fun g => pyStartsWith (pyLower first_line) g) then
    some (if ',' ∈ first_line then (splitOnChar ',' first_line).headD [] else first_line)
  else none

/-- The sign-off vocabulary `sign_off_patterns` of corpus.py lines 264-268. -/
def signOffPhrases : List Str :=
  [("best").data, ("thanks").data, ("thank you").data, ("regards").data, ("cheers").data,
   ("kind regards").data, ("best regards").data, ("many thanks").data, ("sincerely").data,
   ("yours").data, ("warm regards").data, ("take care").data]

/-- `[l.strip() for l in body.strip().split("\n") if l.strip()]`
(corpus.py line 270): the non-empty stripped lines of a body. -/
def nonEmptyLines (body : Str) : List Str :=
  ((splitOnChar '\n' (pyStrip body)).map pyStrip).filter (fun l => ¬ l = [])

/-- `lines[-5:]`: the last five elements of a list (all of them when the
list is shorter). -/
def lastFive (l : List Str) : List Str := l.drop (l.length - 5)

/-- The per-line sign-off test of corpus.py lines 272-273:
`line_lower = line.lower().rstrip(",.")` matches when it starts with or
equals one of the fixed phrases. -/
def signOffLineMatches (line : Str) : Bool :=
  let line_lower := pyRstripPunct (pyLower line)
  signOffPhrases.any (fun p => pyStartsWith line_lower p ∨ line_lower = p)

/-- The inner `for line in lines[-5:] ... break` loop of corpus.py
lines 271-275: append the first matching line (with trailing commas and
periods stripped) and stop scanning. -/
def signOffLoop : List Str → Option Str
  | [] => none
  | line :: rest =>
    if signOffLineMatches line then some (pyRstripPunct line) else signOffLoop rest

/-- The sign-off recorded for one body (at most one per body). -/
def signOffOf (body : Str) : Option Str :=
  signOffLoop (lastFive (nonEmptyLines body))

/-- Modelled from the spec's sign-off sentence: among the last 5
non-empty lines, the first line (in original order) whose lowercase
form, with trailing commas and periods stripped, starts with or exactly
equals a phrase of the sign-off vocabulary, recorded with trailing
commas and periods stripped; no further lines are scanned. -/
def signOffFirstMatchSpec (body : Str) : Option Str :=
  ((lastFive (nonEmptyLines body)).find? (fun line =>
      signOffPhrases.any (fun p =>
        pyStartsWith (pyRstripPunct (pyLower line)) p ∨ pyRstripPunct (pyLower line) = p))).map
    pyRstripPunct

/-- The kept "sentences" of one body (corpus.py lines 280-281):
fragments split on `[.!?]+`, stripped, kept when longer than 10
characters.  (Splitting at every separator character instead of at runs
only inserts empty fragments, which the filter removes.) -/
def keptSentences (body : Str) : List Str :=
  ((splitOnPred (fun c => c = '.' ∨ c = '!' ∨ c = '?') body).map pyStrip).filter
    (fun s => ¬ s = [] ∧ 10 < s.length)

/-- `" ".join(l)`. -/
def joinWith (sep : Str) : List Str → Str
  | [] => []
  | [x] => x
  | x :: y :: rest => x ++ sep ++ joinWith sep (y :: rest)

/-- ASCII word characters of the regex `\w` (the corpus text is
lowercased before matching, and the vocabulary mined is `[a-z]+`). -/
def isWordChar (c : Char) : Bool :=
  ('a' ≤ c ∧ c ≤ 'z') ∨ ('A' ≤ c ∧ c ≤ 'Z') ∨ ('0' ≤ c ∧ c ≤ '9') ∨ c = '_'

/-- `re.findall(r'\b[a-z]+\b', all_text)` (corpus.py line 290, ASCII
model): maximal word-character runs consisting only of `a`-`z`. -/
def lowerWordTokens (s : Str) : List Str :=
  ((splitOnPred (fun c => ¬ isWordChar c) s).filter (fun w => ¬ w = [])).filter
    (fun w => w.all (fun c => 'a' ≤ c ∧ c ≤ 'z'))

/-- The bigrams `" ".join(words[i:i+2])` of corpus.py line 293. -/
def bigramsOf (words : List Str) : List Str :=
  (words.zip words.tail).map (fun pr => pr.1 ++ ' ' :: pr.2)

/-- The trigrams `" ".join(words[i:i+3])` of corpus.py line 294. -/
def trigramsOf (words : List Str) : List Str :=
  (words.zip (words.tail.zip words.tail.tail)).map
    (fun pr => pr.1 ++ ' ' :: pr.2.1 ++ ' ' :: pr.2.2)

/-- The distinct values of a list, in first-occurrence order (the key
order of a Python `Counter`). -/
def dedupKeepFirst (l : List Str) : List Str :=
  l.foldl (fun acc s => if s ∈ acc then acc else acc ++ [s]) []

/-- `Counter(l).most_common(n)`: value/count pairs sorted by count
descending, ties in first-occurrence order (Python's sort is stable;
`List.insertionSort` is the stable sort used throughout this model). -/
def mostCommon (l : List Str) (n : Nat) : List (Str × Nat) :=
  (List.insertionSort (fun a b => b.2 ≤ a.2)
    ((dedupKeepFirst l).map (fun s => (s, l.count s)))).take n

/-- The bigram stoplist `boring` of corpus.py line 297. -/
def boringBigrams : List Str :=
  [("i am").data, ("it is").data, ("this is").data, ("that is").data, ("we are").data,
   ("you are").data, ("i have").data, ("to the").data, ("in the").data, ("of the").data,
   ("and the").data, ("for the").data]

/-- Python `round(x, 1)` in exact rational arithmetic: round `10*x` to
the nearest integer, half to even, divide by 10. -/
def pyRound1 (x : ℚ) : ℚ :=
  let y := x * 10
  let n := y.num
  let d := (y.den : Int)
  let f := Int.fdiv n d
  let rem := n - f * d
  let r : Int :=
    if 2 * rem < d then f
    else if d < 2 * rem then f + 1
    else if f % 2 = 0 then f else f + 1
  (r : ℚ) / 10

/-- The average word count of the kept sentences (corpus.py
lines 283-286), `0` when none. -/
def avgSentenceLen (sents : List Str) : ℚ :=
  if sents = [] then 0
  else ((sents.map (fun s => (pyWords s).length)).sum : ℚ) / (sents.length : ℚ)

/-- `sorted(enumerate(bodies), key=lambda x: len(x[1]))` (corpus.py
line 304); `List.insertionSort` models Python's stable sort. -/
def sortedByLen (bodies : List Str) : List (Nat × Str) :=
  List.insertionSort (fun a b => a.2.length ≤ b.2.length) bodies.enum

/-- The three fixed anchors of corpus.py lines 305-309: index of the
shortest, middle (integer division) and longest sampled body. -/
def anchorIndices (bodies : List Str) : List Nat :=
  let sbl := sortedByLen bodies
  [(sbl.getD 0 (0, [])).1, (sbl.getD (sbl.length / 2) (0, [])).1,
   (sbl.getD (sbl.length - 1) (0, [])).1]

/-- The final selection `indices[:5]` of corpus.py lines 305-316.
`pick remaining k` models the outcome of `random.sample(remaining, k)`;
the claims proved below hold for every such outcome. -/
def chosenIndices (bodies : List Str) (pick : List Nat → Nat → List Nat) : List Nat :=
  let indices := anchorIndices bodies
  let remaining := (List.range bodies.length).filter (fun i => ¬ i ∈ indices)
  let indices2 :=
    if remaining = [] then indices
    else indices ++ pick remaining (min 2 remaining.length)
  indices2.take 5

/-- One entry of `sample_emails` (corpus.py lines 316-322):
`to`/`subject` truncated to 100 characters, body to 1000. -/
structure SampleEmail where
  to_addr : Str
  subject : Str
  body : Str
deriving DecidableEq, Repr

/-- Emit the sample entry for one selected index (corpus.py
lines 316-322); a falsy metadata list yields the `.get` defaults. -/
def sampleEntryAt (metas : List EmailMeta) (bodies : List Str) (idx : Nat) : SampleEmail :=
  let meta : Option EmailMeta := if metas = [] then none else metas.get? idx
  { to_addr := ((meta.map (·.to_addr)).getD ("Unknown").data).take 100
    subject := ((meta.map (·.subject)).getD []).take 100
    body := (bodies.getD idx []).take 1000 }

/-- The `sample_emails` list built by `analyze_writing_style`. -/
def sampleEmailsOf (metas : List EmailMeta) (bodies : List Str)
    (pick : List Nat → Nat → List Nat) : List SampleEmail :=
  (chosenIndices bodies pick).map (sampleEntryAt metas bodies)

/-- `min(sample_size, self.collection.count())` as a sample bound
(corpus.py line 233); non-positive sizes draw nothing. -/
def sampleLimit (store : Store) (sample_size : Int) : Nat :=
  (min sample_size (store.length : Int)).toNat

/-- The documents drawn by `collection.get(limit=..., include=[...])`:
the first `limit` stored texts in the store's default order. -/
def sampleDocs (store : Store) (sample_size : Int) : List Str :=
  (store.map (·.text)).take (sampleLimit store sample_size)

/-- The metadatas drawn alongside `sampleDocs`. -/
def sampleMetas (store : Store) (sample_size : Int) : List EmailMeta :=
  (store.map (·.meta)).take (sampleLimit store sample_size)

/-- The style-analysis report (corpus.py lines 324-335). -/
structure StyleReport where
  emails_analyzed : Nat
  greetings : List (Str × Nat)
  sign_offs : List (Str × Nat)
  avg_sentence_length_words : ℚ
  total_sentences_analyzed : Nat
  two_word : List Str
  three_word : List Str
  sample_emails : List SampleEmail

/-- `EmailCorpus.analyze_writing_style` (corpus.py lines 218-335).  A
Python dict with an `"error"` key is embedded as `Except.error` of the
message; a full report as `Except.ok`. -/
def analyze_writing_style (store : Store) (sample_size : Int)
    (pick : List Nat → Nat → List Nat) : Except Str StyleReport :=
  if store.length = 0 then
    .error ("No emails in corpus. Run sync_sent_emails first.").data
  else
    let documents := sampleDocs store sample_size
    if documents = [] then
      .error ("No documents found in corpus.").data
    else
      let bodies := documents.map bodyOfDoc
      let greetings := bodies.filterMap greetingOf
      let sign_offs := bodies.filterMap signOffOf
      let all_sentences := (bodies.map keptSentences).flatten
      let words := lowerWordTokens (pyLower (joinWith [' '] bodies))
      let common_bigrams :=
        (((mostCommon (bigramsOf words) 30).filter
            (fun pc => ¬ pc.1 ∈ boringBigrams ∧ 2 < pc.2)).map (·.1)).take 10
      let common_trigrams :=
        (((mostCommon (trigramsOf words) 30).filter (fun pc => 2 < pc.2)).map (·.1)).take 10
      .ok
        { emails_analyzed := documents.length
          greetings := mostCommon greetings 10
          sign_offs := mostCommon sign_offs 10
          avg_sentence_length_words := pyRound1 (avgSentenceLen all_sentences)
          total_sentences_analyzed := all_sentences.length
          two_word := common_bigrams
          three_word := common_trigrams
          sample_emails := sampleEmailsOf (sampleMetas store sample_size) bodies pick }

/-- `True` exactly when the analysis returned the explicit error dict. -/
def isErrorResult : Except Str StyleReport → Bool
  | .error _ => true
  | .ok _ => false

/-- The `sample_emails` field of an analysis result (empty for an error
result). -/
def reportSampleEmails : Except Str StyleReport → List SampleEmail
  | .ok r => r.sample_emails
  | .error _ => []

/-! Concrete inputs used by the closed theorems and witnesses below. -/

/-- A concrete metadata record. -/
def demoMeta : EmailMeta :=
  ⟨("alice@example.com").data, ("Hello").data, ("2024-01-01").data, ("t1").data⟩

/-- A concrete stored document text. -/
def demoDocText : Str := ("To: alice@example.com\nSubject: s\n\nshort body here").data

/-- A concrete stored document. -/
def demoDoc1 : StoredDoc := ⟨("m1").data, demoDocText, demoMeta⟩

/-- A second stored document with a longer body. -/
def demoDoc2 : StoredDoc :=
  ⟨("m2").data, ("To: bob\nSubject: t\n\na much much longer body right here").data, demoMeta⟩

/-- A backend whose single hit carries distance exactly `0`. -/
def demoBackendZero : QueryFun := fun _ _ _ => ⟨[[demoDocText]], [[demoMeta]], [[0]]⟩

/-- A backend returning no hits. -/
def demoBackendEmpty : QueryFun := fun _ _ _ => ⟨[], [], []⟩

/-- A concrete outcome function for the random draw (draws nothing). -/
def demoPick : List Nat → Nat → List Nat := fun _ _ => []

/-- A concrete sent email with a non-empty body. -/
def demoEmail1 : Email :=
  ⟨("id1").data, ("t1").data, ("a@x").data, ("Hi").data, ("Hello there friend").data, ("2024").data⟩

/-- A concrete sent email whose body is empty after trimming. -/
def demoEmail2 : Email :=
  ⟨("id2").data, ("t2").data, ("b@x").data, ("Yo").data, ("   ").data, ("2024").data⟩

/-- A mail source holding exactly `demoEmail1` and `demoEmail2`. -/
def demoFetch : FetchFun := fun _ tok =>
  match tok with
  | none => ([demoEmail1, demoEmail2], none)
  | some _ => ([], none)

/-- A one-document store. -/
def demoStore1 : Store := [demoDoc1]

/-- A body matching the spec's sign-off example: it ends with
`"...\nBest regards,\nSam"`. -/
def demoSignOffBody : Str :=
  ("I will send the files tomorrow.\nBest regards,\nSam").data

/-! General helper lemmas. -/

/-- An element read with a default at an in-range index is a member. -/
theorem getD_mem_of_lt {α : Type} (l : List α) (i : Nat) (d : α) (h : i < l.length) :
    l.getD i d ∈ l := by
  rw [List.getD_eq_getElem?_getD, List.getElem?_eq_getElem h]
  exact List.getElem_mem h

/-- Splitting a length by a Boolean predicate. -/
theorem length_filter_not_add_length_filter {α : Type} (p : α → Bool) (l : List α) :
    (l.filter (fun a => !(p a))).length + (l.filter p).length = l.length := by
  induction l with
  | nil => simp
  | cons a t ih =>
    cases hp : p a <;> simp [List.filter_cons, hp] <;> omega

/-- Refining a Boolean filter by a second predicate splits its length. -/
theorem length_filter_and_split {α : Type} (p q : α → Bool) (l : List α) :
    (l.filter p).length =
      (l.filter (fun a => p a && q a)).length +
        (l.filter (fun a => p a && !(q a))).length := by
  induction l with
  | nil => simp
  | cons a t ih =>
    cases hp : p a <;> cases hq : q a <;> simp [List.filter_cons, hp, hq] <;> omega

/-- `find?` keeps its answer under a right append when it already
succeeds. -/
theorem find?_append_of_isSome {α : Type} {p : α → Bool} {l₁ : List α} (l₂ : List α)
    (h : (l₁.find? p).isSome) : (l₁ ++ l₂).find? p = l₁.find? p := by
  rw [List.find?_append]
  cases hf : l₁.find? p with
  | none => rw [hf] at h; simp at h
  | some v => simp [Option.or]


/-! Sync helper lemmas. -/

def keptNew (fetch : FetchFun) (store : Store) (max_emails : Int) : List Email :=
  ((fetchedEmails fetch max_emails).filter
    (isNewEmail (storeIds store))).filter hasBody

theorem sync_store_eq (fetch : FetchFun) (store : Store) (max_emails : Int) :
    (sync_sent_emails fetch store max_emails).store =
      store ++ (keptNew fetch store max_emails).map
        (fun e => ⟨e.id, buildDocText e, buildMeta e⟩) := by
  unfold sync_sent_emails keptNew fetchedEmails
  by_cases hA : (syncLoop fetch max_emails [] none [] 0).1 = []
  · simp [hA]
  · by_cases hNew : ((syncLoop fetch max_emails [] none [] 0).1).filter
        (isNewEmail (storeIds store)) = []
    · simp [hA, hNew]
    · by_cases hKept : (((syncLoop fetch max_emails [] none [] 0).1).filter
          (isNewEmail (storeIds store))).filter hasBody = []
      · simp [hA, hNew, hKept]
      · simp [List.filter_filter, List.filter_eq_nil_iff] at hKept
        simp [hA, hNew]
        rw [if_neg]
        intro hall
        obtain ⟨x, hx, hb, hn⟩ := hKept
        have hf := hall x hx hb
        rw [hf] at hn
        exact Bool.false_ne_true hn

theorem sync_stats_zero (fetch : FetchFun) (store : Store) (max_emails : Int)
    (h : fetchedEmails fetch max_emails = []) :
    (sync_sent_emails fetch store max_emails).stats = ⟨0, 0, 0⟩ := by
  unfold sync_sent_emails
  unfold fetchedEmails at h
  simp [h]

theorem sync_stats_formula (fetch : FetchFun) (store : Store) (max_emails : Int)
    (h : fetchedEmails fetch max_emails ≠ []) :
    (sync_sent_emails fetch store max_emails).stats =
      ⟨((fetchedEmails fetch max_emails).length : Int),
        ((keptNew fetch store max_emails).length : Int),
        ((fetchedEmails fetch max_emails).length : Int) -
          ((keptNew fetch store max_emails).length : Int)⟩ := by
  unfold sync_sent_emails keptNew fetchedEmails
  unfold fetchedEmails at h
  by_cases hNew : ((syncLoop fetch max_emails [] none [] 0).1).filter
      (isNewEmail (storeIds store)) = []
  · simp [h, hNew]
  · by_cases hKept : (((syncLoop fetch max_emails [] none [] 0).1).filter
        (isNewEmail (storeIds store))).filter hasBody = []
    · simp [h, hNew, hKept]
    · simp [List.filter_filter, List.filter_eq_nil_iff] at hKept
      simp [h, hNew]
      rw [if_neg]
      intro hall
      obtain ⟨x, hx, hb, hn⟩ := hKept
      have hf := hall x hx hb
      rw [hf] at hn
      exact Bool.false_ne_true hn

/-- Evaluation of the demo pagination loop (one page of two emails). -/
theorem demo_syncLoop_eval :
    syncLoop demoFetch 10 [] none [] 0 = ([demoEmail1, demoEmail2], [(2, 10)], 1) := by
  rw [syncLoop.eq_def]
  decide

/-- The demo sync call downloads two emails. -/
theorem demo_sync_downloaded :
    (sync_sent_emails demoFetch [] 10).stats.downloaded = 2 := by
  unfold sync_sent_emails
  rw [demo_syncLoop_eval]
  decide

/-! C2. -/

/-- C2: whenever `sync_sent_emails` reports `downloaded > 0`, the
returned statistics satisfy `downloaded = embedded + skipped`, and
`skipped` counts exactly the downloaded emails whose id was already
stored plus the new ones whose body is empty after trimming. -/
theorem sync_downloaded_eq_embedded_plus_skipped (fetch : FetchFun) (store : Store)
    (max_emails : Int)
    (h : 0 < (sync_sent_emails fetch store max_emails).stats.downloaded) :
    (sync_sent_emails fetch store max_emails).stats.downloaded =
      (sync_sent_emails fetch store max_emails).stats.embedded +
        (sync_sent_emails fetch store max_emails).stats.skipped ∧
    (sync_sent_emails fetch store max_emails).stats.skipped =
      (((fetchedEmails fetch max_emails).filter
          (fun e => !(isNewEmail (storeIds store) e))).length : Int) +
        (((fetchedEmails fetch max_emails).filter
          (fun e => isNewEmail (storeIds store) e && !(hasBody e))).length : Int) := by
  have hne : fetchedEmails fetch max_emails ≠ [] := by
    intro hnil
    rw [sync_stats_zero fetch store max_emails hnil] at h
    exact lt_irrefl 0 h
  rw [sync_stats_formula fetch store max_emails hne]
  set A := fetchedEmails fetch max_emails
  set p := isNewEmail (storeIds store)
  have e1 : (A.filter (fun a => !(p a))).length + (A.filter p).length = A.length :=
    length_filter_not_add_length_filter p A
  have e2 : (A.filter p).length =
      (A.filter (fun a => p a && hasBody a)).length +
        (A.filter (fun a => p a && !(hasBody a))).length :=
    length_filter_and_split p hasBody A
  have e3 : (keptNew fetch store max_emails).length =
      (A.filter (fun a => p a && hasBody a)).length := by
    unfold keptNew
    rw [List.filter_filter]
    exact congrArg List.length (List.filter_congr (fun x _ => Bool.and_comm (hasBody x) (p x)))
  constructor
  · ring
  · rw [e3]
    push_cast
    omega

/-- Witness for C2 at the demo mail source and an empty store. -/
theorem sync_downloaded_eq_embedded_plus_skipped_witness :
    (sync_sent_emails demoFetch [] 10).stats.downloaded =
      (sync_sent_emails demoFetch [] 10).stats.embedded +
        (sync_sent_emails demoFetch [] 10).stats.skipped :=
  (sync_downloaded_eq_embedded_plus_skipped demoFetch [] 10
    (by rw [demo_sync_downloaded]; decide)).1

/-! C3. -/

/-- C3: ids already present before a sync are excluded from the store
write (every stored document after the call is an old one or carries a
previously-unseen id), lookups of previously-present ids are unchanged,
and a second sync against the unchanged mail source embeds nothing and
reports `skipped = downloaded`. -/
theorem sync_never_overwrites_and_second_run_embeds_nothing
    (fetch : FetchFun) (store : Store) (max_emails : Int) :
    (∀ d ∈ (sync_sent_emails fetch store max_emails).store,
        d ∈ store ∨ ¬ d.id ∈ storeIds store) ∧
    (∀ i ∈ storeIds store,
        findById (sync_sent_emails fetch store max_emails).store i = findById store i) ∧
    (sync_sent_emails fetch (sync_sent_emails fetch store max_emails).store
        max_emails).stats.embedded = 0 ∧
    (sync_sent_emails fetch (sync_sent_emails fetch store max_emails).store
        max_emails).stats.skipped =
      (sync_sent_emails fetch (sync_sent_emails fetch store max_emails).store
        max_emails).stats.downloaded := by
  have hids : storeIds (sync_sent_emails fetch store max_emails).store =
      storeIds store ++ (keptNew fetch store max_emails).map (fun e => e.id) := by
    rw [sync_store_eq]
    simp [storeIds, List.map_map, Function.comp]
  refine ⟨?_, ?_, ?_, ?_⟩
  · intro d hd
    rw [sync_store_eq] at hd
    rcases List.mem_append.mp hd with hl | hr
    · exact Or.inl hl
    · right
      obtain ⟨e, he, rfl⟩ := List.mem_map.mp hr
      have hmem := (List.mem_filter.mp (List.mem_filter.mp he).1).2
      simpa [isNewEmail] using hmem
  · intro i hi
    rw [sync_store_eq]
    apply find?_append_of_isSome
    rw [List.find?_isSome]
    obtain ⟨d, hd, hdi⟩ := List.mem_map.mp hi
    exact ⟨d, hd, by simp [findById, hdi]⟩
  · by_cases hA : fetchedEmails fetch max_emails = []
    · rw [sync_stats_zero fetch _ max_emails hA]
    · have hkept2 : keptNew fetch (sync_sent_emails fetch store max_emails).store
          max_emails = [] := by
        unfold keptNew
        apply List.filter_eq_nil_iff.mpr
        intro e he
        obtain ⟨heA, hp2⟩ := List.mem_filter.mp he
        have hnot : ¬ e.id ∈ storeIds (sync_sent_emails fetch store max_emails).store := by
          simpa [isNewEmail] using hp2
        intro hb
        have hp1 : isNewEmail (storeIds store) e = true := by
          simp only [isNewEmail, decide_eq_true_eq]
          intro hmem
          exact hnot (by rw [hids]; exact List.mem_append_left _ hmem)
        have hek : e ∈ keptNew fetch store max_emails :=
          List.mem_filter.mpr ⟨List.mem_filter.mpr ⟨heA, hp1⟩, hb⟩
        exact hnot (by
          rw [hids]
          exact List.mem_append_right _ (List.mem_map.mpr ⟨e, hek, rfl⟩))
      rw [sync_stats_formula fetch _ max_emails hA]
      simp [hkept2]
  · by_cases hA : fetchedEmails fetch max_emails = []
    · rw [sync_stats_zero fetch _ max_emails hA]
    · have hkept2 : keptNew fetch (sync_sent_emails fetch store max_emails).store
          max_emails = [] := by
        unfold keptNew
        apply List.filter_eq_nil_iff.mpr
        intro e he
        obtain ⟨heA, hp2⟩ := List.mem_filter.mp he
        have hnot : ¬ e.id ∈ storeIds (sync_sent_emails fetch store max_emails).store := by
          simpa [isNewEmail] using hp2
        intro hb
        have hp1 : isNewEmail (storeIds store) e = true := by
          simp only [isNewEmail, decide_eq_true_eq]
          intro hmem
          exact hnot (by rw [hids]; exact List.mem_append_left _ hmem)
        have hek : e ∈ keptNew fetch store max_emails :=
          List.mem_filter.mpr ⟨List.mem_filter.mpr ⟨heA, hp1⟩, hb⟩
        exact hnot (by
          rw [hids]
          exact List.mem_append_right _ (List.mem_map.mpr ⟨e, hek, rfl⟩))
      rw [sync_stats_formula fetch _ max_emails hA]
      simp [hkept2]

/-- Witness for C3: the demo sync leaves the lookup of stored id `m1`
unchanged, and a repeated sync embeds nothing. -/
theorem sync_never_overwrites_witness :
    findById (sync_sent_emails demoFetch demoStore1 10).store (("m1").data) =
      findById demoStore1 (("m1").data) ∧
    (sync_sent_emails demoFetch (sync_sent_emails demoFetch demoStore1 10).store
        10).stats.embedded = 0 :=
  ⟨(sync_never_overwrites_and_second_run_embeds_nothing demoFetch demoStore1 10).2.1
      (("m1").data) (by decide),
   (sync_never_overwrites_and_second_run_embeds_nothing demoFetch demoStore1 10).2.2.1⟩

/-! C9. -/

/-- C9: with `max_emails ≤ 0` the pagination loop body never runs: no
page is fetched, no progress notification is made, nothing is embedded
or written, and the statistics are all zero. -/
theorem sync_nonpositive_max_is_noop (fetch : FetchFun) (store : Store)
    (max_emails : Int) (h : max_emails ≤ 0) :
    sync_sent_emails fetch store max_emails =
      { stats := ⟨0, 0, 0⟩, store := store, events := [], pages := 0, embedCalls := 0 } := by
  have hc : ¬ ((([] : List Email).length : Int) < max_emails) := by
    simp only [List.length_nil, Nat.cast_zero]
    omega
  have hloop : syncLoop fetch max_emails [] none [] 0 = ([], [], 0) := by
    rw [syncLoop.eq_def, dif_neg hc]
  unfold sync_sent_emails
  rw [hloop]
  rfl

/-- Witness for C9 at `max_emails = 0`. -/
theorem sync_nonpositive_max_is_noop_witness :
    sync_sent_emails demoFetch demoStore1 0 =
      { stats := ⟨0, 0, 0⟩, store := demoStore1, events := [], pages := 0, embedCalls := 0 } :=
  sync_nonpositive_max_is_noop demoFetch demoStore1 0 (by decide)

/-! C1. -/

/-- C1 (code-bug exhibit): against a backend that reports a distance of
exactly `0` for the single hit, `find_similar_emails` returns that hit
with a `null` similarity — the claim (and spec) require similarity
exactly `1` there, i.e. `1 - distance` whenever a distance is supplied.
The cause is the Python truthiness test `1 - distance if distance else
None` at corpus.py line 203, which treats distance `0` like a missing
distance. -/
theorem find_similar_zero_distance_yields_null_similarity :
    ((find_similar_emails demoStore1 demoBackendZero ("draft").data 5 none).1.map
        (·.similarity)) = [none] := by
  decide

/-! C4. -/

/-- C4: on a store holding zero documents, `find_similar_emails` returns
the empty hit list and issues no query call to the vector store backend,
for every query, result count and recipient filter. -/
theorem find_similar_empty_store_no_backend_call (store : Store) (backend : QueryFun)
    (query : Str) (n_results : Int) (recipient_filter : Option Str)
    (h : store.length = 0) :
    find_similar_emails store backend query n_results recipient_filter = ([], []) := by
  unfold find_similar_emails
  rw [if_pos h]

/-- Witness for C4 at the empty store. -/
theorem find_similar_empty_store_no_backend_call_witness :
    find_similar_emails [] demoBackendZero ("draft").data 5 (some (("bob").data)) = ([], []) :=
  find_similar_empty_store_no_backend_call [] demoBackendZero (("draft").data) 5
    (some (("bob").data)) rfl

/-! C5. -/

/-- C5: `analyze_writing_style` returns the explicit error result (never
an exception) both when the store holds zero documents and when the
sample drawn at call time contains zero documents. -/
theorem analyze_empty_corpus_explicit_error (store : Store) (sample_size : Int)
    (pick : List Nat → Nat → List Nat) :
    (store.length = 0 →
      isErrorResult (analyze_writing_style store sample_size pick) = true) ∧
    (sampleDocs store sample_size = [] →
      isErrorResult (analyze_writing_style store sample_size pick) = true) := by
  constructor
  · intro h
    unfold analyze_writing_style
    rw [if_pos h]
    rfl
  · intro h
    unfold analyze_writing_style
    by_cases h0 : store.length = 0
    · rw [if_pos h0]
      rfl
    · rw [if_neg h0]
      simp only [h, if_pos]
      rfl

/-- Witness for C5: the empty store errors, and a one-document store
with `sample_size = 0` draws an empty sample and errors. -/
theorem analyze_empty_corpus_explicit_error_witness :
    isErrorResult (analyze_writing_style [] 50 demoPick) = true ∧
    isErrorResult (analyze_writing_style [demoDoc1] 0 demoPick) = true :=
  ⟨(analyze_empty_corpus_explicit_error [] 50 demoPick).1 rfl,
   (analyze_empty_corpus_explicit_error [demoDoc1] 0 demoPick).2 (by decide)⟩

/-! C8. -/

/-- C8: an empty-string `recipient_filter` behaves exactly like an
absent one — the results are identical and every query call issued for
it carries no `where` filter (Python truthiness of `""` at corpus.py
line 180). -/
theorem find_similar_blank_filter_same_as_none (store : Store) (backend : QueryFun)
    (query : Str) (n_results : Int) :
    find_similar_emails store backend query n_results (some []) =
      find_similar_emails store backend query n_results none ∧
    ∀ c ∈ (find_similar_emails store backend query n_results (some [])).2,
      c.whereClause = none := by
  constructor
  · rfl
  · intro c hc
    unfold find_similar_emails at hc
    by_cases h0 : store.length = 0
    · rw [if_pos h0] at hc
      simp at hc
    · rw [if_neg h0] at hc
      simp only [List.mem_singleton] at hc
      simp [hc]

/-- Witness for C8 at a one-document store. -/
theorem find_similar_blank_filter_same_as_none_witness :
    find_similar_emails demoStore1 demoBackendEmpty ("draft").data 5 (some []) =
      find_similar_emails demoStore1 demoBackendEmpty ("draft").data 5 none ∧
    (QueryCall.mk ("draft").data 5 none).whereClause = none :=
  ⟨(find_similar_blank_filter_same_as_none demoStore1 demoBackendEmpty
      ("draft").data 5).1,
   (find_similar_blank_filter_same_as_none demoStore1 demoBackendEmpty
      ("draft").data 5).2 ⟨("draft").data, 5, none⟩ (by decide)⟩

/-! C6. -/

/-- The sign-off loop returns the first matching line among the scanned
ones, with trailing commas and periods stripped. -/
theorem signOffLoop_eq_find (l : List Str) :
    signOffLoop l = (l.find? signOffLineMatches).map pyRstripPunct := by
  induction l with
  | nil => rfl
  | cons line rest ih =>
    by_cases hm : signOffLineMatches line = true
    · simp [signOffLoop, List.find?_cons, hm]
    · simp only [Bool.not_eq_true] at hm
      simp [signOffLoop, List.find?_cons, hm, ih]

/-- C6: per body, sign-off detection records exactly the first line (in
original order) of the last 5 non-empty lines whose lowercase,
punctuation-stripped form starts with or equals a fixed phrase, stripped
of trailing commas and periods, and scans no further (so at most one
sign-off is counted per body); the spec's example body ending in
`"...\nBest regards,\nSam"` yields `"Best regards"`. -/
theorem sign_off_first_match_at_most_one_per_body :
    (∀ body : Str, signOffOf body = signOffFirstMatchSpec body) ∧
    (∀ bodies : List Str, (bodies.filterMap signOffOf).length ≤ bodies.length) ∧
    signOffOf demoSignOffBody = some (("Best regards").data) := by
  refine ⟨?_, ?_, ?_⟩
  · intro body
    unfold signOffOf signOffFirstMatchSpec
    rw [signOffLoop_eq_find]
    rfl
  · intro bodies
    exact List.length_filterMap_le signOffOf bodies
  · decide

/-! Sorting helper lemmas for the representative-sample selection. -/

instance : IsTotal (Nat × Str) (fun a b => a.2.length ≤ b.2.length) :=
  ⟨fun a b => Nat.le_total a.2.length b.2.length⟩

instance : IsTrans (Nat × Str) (fun a b => a.2.length ≤ b.2.length) :=
  ⟨fun _ _ _ h1 h2 => Nat.le_trans h1 h2⟩

/-- The stable sort of the enumerated bodies is sorted by body length. -/
theorem sortedByLen_sorted (bodies : List Str) :
    List.Sorted (fun a b : Nat × Str => a.2.length ≤ b.2.length) (sortedByLen bodies) :=
  List.sorted_insertionSort _ _

/-- The stable sort permutes the enumerated bodies. -/
theorem sortedByLen_perm (bodies : List Str) :
    (sortedByLen bodies).Perm bodies.enum :=
  List.perm_insertionSort _ _

/-- Sorting preserves the number of bodies. -/
theorem sortedByLen_length (bodies : List Str) :
    (sortedByLen bodies).length = bodies.length := by
  rw [(sortedByLen_perm bodies).length_eq, List.enum_length]

/-- A sorted pair indexes its body in the original list. -/
theorem mem_bodies_of_mem_sortedByLen {bodies : List Str} {x : Nat × Str}
    (h : x ∈ sortedByLen bodies) :
    bodies.getD x.1 [] = x.2 ∧ x.2 ∈ bodies := by
  have hx : x ∈ bodies.enum := (sortedByLen_perm bodies).mem_iff.mp h
  have hget : bodies[x.1]? = some x.2 := List.mem_enum_iff_getElem?.mp hx
  obtain ⟨hlt, heq⟩ := List.getElem?_eq_some.mp hget
  constructor
  · rw [List.getD_eq_getElem?_getD, hget]
    rfl
  · rw [← heq]
    exact List.getElem_mem hlt

/-- Every body appears in the sorted enumeration. -/
theorem exists_mem_sortedByLen_of_mem {bodies : List Str} {b : Str} (h : b ∈ bodies) :
    ∃ i, (i, b) ∈ sortedByLen bodies := by
  have hb : b ∈ bodies.enum.map Prod.snd := by
    rw [List.enum_map_snd]
    exact h
  obtain ⟨x, hx, hxb⟩ := List.mem_map.mp hb
  refine ⟨x.1, ?_⟩
  have hxx : (x.1, b) = x := by
    cases x
    simp at hxb
    rw [hxb]
  rw [hxx]
  exact (sortedByLen_perm bodies).mem_iff.mpr hx

/-- The head of a length-sorted list has minimal body length. -/
theorem sorted_head_min {l : List (Nat × Str)}
    (hs : List.Sorted (fun a b : Nat × Str => a.2.length ≤ b.2.length) l)
    {x : Nat × Str} (hx : x ∈ l) :
    (l.getD 0 (0, [])).2.length ≤ x.2.length := by
  cases l with
  | nil => cases hx
  | cons a t =>
    rw [List.getD_cons_zero]
    rcases List.mem_cons.mp hx with rfl | hxt
    · exact Nat.le_refl _
    · exact List.rel_of_sorted_cons hs x hxt

/-- The last element of a length-sorted list has maximal body length. -/
theorem sorted_last_max {l : List (Nat × Str)}
    (hs : List.Sorted (fun a b : Nat × Str => a.2.length ≤ b.2.length) l)
    {x : Nat × Str} (hx : x ∈ l) :
    x.2.length ≤ (l.getD (l.length - 1) (0, [])).2.length := by
  induction l with
  | nil => cases hx
  | cons a t ih =>
    cases t with
    | nil =>
      rcases List.mem_cons.mp hx with rfl | hxt
      · exact Nat.le_refl _
      · cases hxt
    | cons b u =>
      have hstep : (a :: b :: u).getD ((a :: b :: u).length - 1) (0, []) =
          (b :: u).getD ((b :: u).length - 1) (0, []) := by
        have hidx : (a :: b :: u).length - 1 = ((b :: u).length - 1) + 1 := by
          simp [List.length_cons]
        rw [hidx, List.getD_cons_succ]
      rw [hstep]
      rcases List.mem_cons.mp hx with rfl | hxt
      · refine List.rel_of_sorted_cons hs _ (getD_mem_of_lt _ _ _ ?_)
        simp
      · exact ih hs.of_cons hxt

/-- Unfolded form of `chosenIndices` (the `let` bindings expanded). -/
theorem chosenIndices_def (bodies : List Str) (pick : List Nat → Nat → List Nat) :
    chosenIndices bodies pick =
      (if (List.range bodies.length).filter (fun j => ¬ j ∈ anchorIndices bodies) = []
       then anchorIndices bodies
       else anchorIndices bodies ++
         pick ((List.range bodies.length).filter (fun j => ¬ j ∈ anchorIndices bodies))
           (min 2 ((List.range bodies.length).filter
             (fun j => ¬ j ∈ anchorIndices bodies)).length)).take 5 := rfl

/-- Every anchor index survives into the final `indices[:5]` selection. -/
theorem anchor_mem_chosenIndices (bodies : List Str) (pick : List Nat → Nat → List Nat)
    {i : Nat} (hi : i ∈ anchorIndices bodies) :
    i ∈ chosenIndices bodies pick := by
  have hlen3 : (anchorIndices bodies).length = 3 := by
    simp [anchorIndices]
  rw [chosenIndices_def]
  by_cases hrem : (List.range bodies.length).filter
      (fun j => ¬ j ∈ anchorIndices bodies) = []
  · rw [if_pos hrem, List.take_of_length_le (by rw [hlen3]; omega)]
    exact hi
  · rw [if_neg hrem]
    have h5 : (5 : Nat) = (anchorIndices bodies).length + 2 := by
      rw [hlen3]
    rw [h5, List.take_append]
    exact List.mem_append_left _ hi

/-- The `sample_emails` selection never exceeds 5 entries. -/
theorem sampleEmailsOf_length_le (metas : List EmailMeta) (bodies : List Str)
    (pick : List Nat → Nat → List Nat) :
    (sampleEmailsOf metas bodies pick).length ≤ 5 := by
  unfold sampleEmailsOf chosenIndices
  rw [List.length_map]
  exact List.length_take_le 5 _

/-- The selection contains an entry for a body of minimal length. -/
theorem sampleEmailsOf_has_min (metas : List EmailMeta) (bodies : List Str)
    (pick : List Nat → Nat → List Nat) (h : bodies ≠ []) :
    ∃ b ∈ bodies, (∀ b2 ∈ bodies, b.length ≤ b2.length) ∧
      ∃ s ∈ sampleEmailsOf metas bodies pick, s.body = b.take 1000 := by
  have hne : sortedByLen bodies ≠ [] := by
    intro h0
    apply h
    have hl := sortedByLen_length bodies
    rw [h0] at hl
    exact List.length_eq_zero.mp hl.symm
  have ha0mem : (sortedByLen bodies).getD 0 (0, []) ∈ sortedByLen bodies :=
    getD_mem_of_lt _ _ _ (List.length_pos.mpr hne)
  obtain ⟨hget, hmem⟩ := mem_bodies_of_mem_sortedByLen ha0mem
  refine ⟨((sortedByLen bodies).getD 0 (0, [])).2, hmem, ?_, ?_⟩
  · intro b2 hb2
    obtain ⟨i, hib⟩ := exists_mem_sortedByLen_of_mem hb2
    exact sorted_head_min (sortedByLen_sorted bodies) hib
  · refine ⟨sampleEntryAt metas bodies ((sortedByLen bodies).getD 0 (0, [])).1, ?_, ?_⟩
    · refine List.mem_map.mpr ⟨((sortedByLen bodies).getD 0 (0, [])).1, ?_, rfl⟩
      apply anchor_mem_chosenIndices
      unfold anchorIndices
      exact List.mem_cons_self _ _
    · show (bodies.getD ((sortedByLen bodies).getD 0 (0, [])).1 []).take 1000 = _
      rw [hget]

/-- The selection contains an entry for a body of maximal length. -/
theorem sampleEmailsOf_has_max (metas : List EmailMeta) (bodies : List Str)
    (pick : List Nat → Nat → List Nat) (h : bodies ≠ []) :
    ∃ b ∈ bodies, (∀ b2 ∈ bodies, b2.length ≤ b.length) ∧
      ∃ s ∈ sampleEmailsOf metas bodies pick, s.body = b.take 1000 := by
  have hne : sortedByLen bodies ≠ [] := by
    intro h0
    apply h
    have hl := sortedByLen_length bodies
    rw [h0] at hl
    exact List.length_eq_zero.mp hl.symm
  have haLmem : (sortedByLen bodies).getD ((sortedByLen bodies).length - 1) (0, []) ∈
      sortedByLen bodies := by
    refine getD_mem_of_lt _ _ _ ?_
    have := List.length_pos.mpr hne
    omega
  obtain ⟨hget, hmem⟩ := mem_bodies_of_mem_sortedByLen haLmem
  refine ⟨((sortedByLen bodies).getD ((sortedByLen bodies).length - 1) (0, [])).2, hmem, ?_, ?_⟩
  · intro b2 hb2
    obtain ⟨i, hib⟩ := exists_mem_sortedByLen_of_mem hb2
    exact sorted_last_max (sortedByLen_sorted bodies) hib
  · refine ⟨sampleEntryAt metas bodies
        ((sortedByLen bodies).getD ((sortedByLen bodies).length - 1) (0, [])).1, ?_, ?_⟩
    · refine List.mem_map.mpr
        ⟨((sortedByLen bodies).getD ((sortedByLen bodies).length - 1) (0, [])).1, ?_, rfl⟩
      apply anchor_mem_chosenIndices
      unfold anchorIndices
      simp
    · show (bodies.getD ((sortedByLen bodies).getD ((sortedByLen bodies).length - 1)
          (0, [])).1 []).take 1000 = _
      rw [hget]

/-- On a non-empty sample, analysis succeeds and its `sample_emails` is
the selection computed from the drawn bodies and metadatas. -/
theorem analyze_ok_sample (store : Store) (sample_size : Int)
    (pick : List Nat → Nat → List Nat) (h : sampleDocs store sample_size ≠ []) :
    reportSampleEmails (analyze_writing_style store sample_size pick) =
      sampleEmailsOf (sampleMetas store sample_size)
        ((sampleDocs store sample_size).map bodyOfDoc) pick := by
  have h0 : ¬ store.length = 0 := by
    intro h0
    apply h
    have hnil : store = [] := List.length_eq_zero.mp h0
    simp [sampleDocs, hnil]
  unfold analyze_writing_style
  rw [if_neg h0, if_neg h]
  rfl

/-! C7. -/

/-- C7: for every non-empty sample and every outcome of the random
draw, `sample_emails` has at most 5 entries, and when the sample holds
at least 2 documents it contains an entry for a body of minimal length
and one for a body of maximal length among the sampled bodies (bodies
truncated to 1000 characters on emission). -/
theorem style_sample_at_most_five_and_includes_extremes (store : Store)
    (sample_size : Int) (pick : List Nat → Nat → List Nat)
    (h : sampleDocs store sample_size ≠ []) :
    (reportSampleEmails (analyze_writing_style store sample_size pick)).length ≤ 5 ∧
    (2 ≤ ((sampleDocs store sample_size).map bodyOfDoc).length →
      (∃ b ∈ (sampleDocs store sample_size).map bodyOfDoc,
          (∀ b2 ∈ (sampleDocs store sample_size).map bodyOfDoc, b.length ≤ b2.length) ∧
          ∃ s ∈ reportSampleEmails (analyze_writing_style store sample_size pick),
            s.body = b.take 1000) ∧
      (∃ b ∈ (sampleDocs store sample_size).map bodyOfDoc,
          (∀ b2 ∈ (sampleDocs store sample_size).map bodyOfDoc, b2.length ≤ b.length) ∧
          ∃ s ∈ reportSampleEmails (analyze_writing_style store sample_size pick),
            s.body = b.take 1000)) := by
  have hb : (sampleDocs store sample_size).map bodyOfDoc ≠ [] := by
    simpa using h
  rw [analyze_ok_sample store sample_size pick h]
  exact ⟨sampleEmailsOf_length_le _ _ _,
    fun _ => ⟨sampleEmailsOf_has_min _ _ _ hb, sampleEmailsOf_has_max _ _ _ hb⟩⟩

/-- Witness for C7 at a two-document store. -/
theorem style_sample_at_most_five_witness :
    (reportSampleEmails (analyze_writing_style [demoDoc1, demoDoc2] 50 demoPick)).length ≤ 5 :=
  (style_sample_at_most_five_and_includes_extremes [demoDoc1, demoDoc2] 50 demoPick
    (by decide)).1

/-! C10. -/

/-- The selection for a one-body sample repeats the single entry three
times (all three anchors coincide). -/
theorem sampleEmailsOf_singleton (metas : List EmailMeta) (b : Str)
    (pick : List Nat → Nat → List Nat) :
    sampleEmailsOf metas [b] pick =
      [sampleEntryAt metas [b] 0, sampleEntryAt metas [b] 0, sampleEntryAt metas [b] 0] := by
  have hsort : sortedByLen [b] = [(0, b)] := by
    simp [sortedByLen, List.insertionSort, List.enum]
  have hanch : anchorIndices [b] = [0, 0, 0] := by
    simp [anchorIndices, hsort]
  have hchosen : chosenIndices [b] pick = [0, 0, 0] := by
    rw [chosenIndices_def, hanch]
    rfl
  unfold sampleEmailsOf
  rw [hchosen]
  rfl

/-- The selection for a two-body sample is `[shorter, longer, longer]`
(middle and last anchors coincide; ties resolve to the second body, as
Python's stable sort does). -/
theorem sampleEmailsOf_pair (metas : List EmailMeta) (b0 b1 : Str)
    (pick : List Nat → Nat → List Nat) :
    sampleEmailsOf metas [b0, b1] pick =
      if b0.length ≤ b1.length then
        [sampleEntryAt metas [b0, b1] 0, sampleEntryAt metas [b0, b1] 1,
          sampleEntryAt metas [b0, b1] 1]
      else
        [sampleEntryAt metas [b0, b1] 1, sampleEntryAt metas [b0, b1] 0,
          sampleEntryAt metas [b0, b1] 0] := by
  by_cases hle : b0.length ≤ b1.length
  · have hsort : sortedByLen [b0, b1] = [(0, b0), (1, b1)] := by
      simp [sortedByLen, List.insertionSort, List.orderedInsert, List.enum, hle]
    have hanch : anchorIndices [b0, b1] = [0, 1, 1] := by
      simp [anchorIndices, hsort]
    have hchosen : chosenIndices [b0, b1] pick = [0, 1, 1] := by
      rw [chosenIndices_def, hanch]
      rfl
    rw [if_pos hle]
    unfold sampleEmailsOf
    rw [hchosen]
    rfl
  · have hsort : sortedByLen [b0, b1] = [(1, b1), (0, b0)] := by
      simp [sortedByLen, List.insertionSort, List.orderedInsert, List.enum, hle]
    have hanch : anchorIndices [b0, b1] = [1, 0, 0] := by
      simp [anchorIndices, hsort]
    have hchosen : chosenIndices [b0, b1] pick = [1, 0, 0] := by
      rw [chosenIndices_def, hanch]
      rfl
    rw [if_neg hle]
    unfold sampleEmailsOf
    rw [hchosen]
    rfl

/-- C10: with fewer than 3 sampled documents the three anchor indices
coincide and `sample_emails` contains duplicate entries: a one-document
sample yields 3 identical entries; a two-document sample yields 3
entries with the longer body's entry appearing twice (on a length tie,
the second body plays the role of the longer one). -/
theorem style_small_sample_duplicate_entries (store : Store) (sample_size : Int)
    (pick : List Nat → Nat → List Nat) :
    (∀ b, (sampleDocs store sample_size).map bodyOfDoc = [b] →
       ∃ e, reportSampleEmails (analyze_writing_style store sample_size pick) = [e, e, e]) ∧
    (∀ b0 b1, (sampleDocs store sample_size).map bodyOfDoc = [b0, b1] →
       ∃ e f, reportSampleEmails (analyze_writing_style store sample_size pick) = [e, f, f] ∧
         f.body = (if b0.length ≤ b1.length then b1 else b0).take 1000 ∧
         e.body = (if b0.length ≤ b1.length then b0 else b1).take 1000) := by
  constructor
  · intro b hb
    have hne : sampleDocs store sample_size ≠ [] := by
      intro h0
      rw [h0] at hb
      simp at hb
    rw [analyze_ok_sample store sample_size pick hne, hb, sampleEmailsOf_singleton]
    exact ⟨_, rfl⟩
  · intro b0 b1 hb
    have hne : sampleDocs store sample_size ≠ [] := by
      intro h0
      rw [h0] at hb
      simp at hb
    rw [analyze_ok_sample store sample_size pick hne, hb, sampleEmailsOf_pair]
    by_cases hle : b0.length ≤ b1.length
    · rw [if_pos hle, if_pos hle, if_pos hle]
      refine ⟨_, _, rfl, ?_, ?_⟩
      · simp [sampleEntryAt]
      · simp [sampleEntryAt]
    · rw [if_neg hle, if_neg hle, if_neg hle]
      refine ⟨_, _, rfl, ?_, ?_⟩
      · simp [sampleEntryAt]
      · simp [sampleEntryAt]

/-- Witness for C10 at a two-document store: the longer body's entry
appears twice. -/
theorem style_small_sample_duplicate_entries_witness :
    ∃ e f,
      reportSampleEmails (analyze_writing_style [demoDoc1, demoDoc2] 50 demoPick) =
        [e, f, f] ∧
      f.body = (if (("short body here").data).length ≤
            (("a much much longer body right here").data).length
          then ("a much much longer body right here").data
          else ("short body here").data).take 1000 ∧
      e.body = (if (("short body here").data).length ≤
            (("a much much longer body right here").data).length
          then ("short body here").data
          else ("a much much longer body right here").data).take 1000 :=
  (style_small_sample_duplicate_entries [demoDoc1, demoDoc2] 50 demoPick).2
    (("short body here").data) (("a much much longer body right here").data) (by decide)
